import Mathlib

set_option maxRecDepth 4000

namespace PythonHosting

/-! Shallow embedding of the script process supervisor in src/bot.py.
Strings are modelled with Lean String; the Python str operations used by the
source (strip, lower, startswith, split, slicing) are re-implemented
structurally over the underlying character lists so that everything reduces. -/

/-- ASCII whitespace recognised by Python str.strip. -/
def isSpaceChar (c : Char) : Bool :=
  c = ' ' || c = '\t' || c = '\n' || c = '\r' || c = '\x0b' || c = '\x0c'

/-- Python str.strip on a character list. -/
def stripChars (l : List Char) : List Char :=
  ((l.dropWhile isSpaceChar).reverse.dropWhile isSpaceChar).reverse

/-- Python line.strip(). -/
def pyStrip (s : String) : String := ⟨stripChars s.data⟩

/-- Python str.lower (ASCII). -/
def pyLower (s : String) : String := ⟨s.data.map Char.toLower⟩

/-- Character-list version of Python str.startswith. -/
def isPrefixOfChars : List Char → List Char → Bool
  | [], _ => true
  | _ :: _, [] => false
  | a :: as, b :: bs => a = b && isPrefixOfChars as bs

/-- Python s.startswith(p). -/
def pyStartsWith (s p : String) : Bool := isPrefixOfChars p.data s.data

/-- Python s[n:]. -/
def pyDrop (s : String) (n : Nat) : String := ⟨s.data.drop n⟩

/-- Python c in s. -/
def containsChar (s : String) (c : Char) : Bool := s.data.contains c

/-- Helper for Python str.split() with no separator. -/
def splitWSAux : List Char → List Char → List (List Char)
  | [], acc => if acc.isEmpty then [] else [acc.reverse]
  | c :: rest, acc =>
    if isSpaceChar c then
      if acc.isEmpty then splitWSAux rest [] else acc.reverse :: splitWSAux rest []
    else splitWSAux rest (c :: acc)

/-- Python line.split(): whitespace-separated tokens, empties dropped. -/
def pySplitWS (s : String) : List String := (splitWSAux s.data []).map (fun l => ⟨l⟩)

/-- Helper splitting a character list at newline characters. -/
def splitLinesAux : List Char → List Char → List (List Char)
  | [], acc => [acc.reverse]
  | c :: rest, acc =>
    if c = '\n' then acc.reverse :: splitLinesAux rest [] else splitLinesAux rest (c :: acc)

/-- File content as a list of lines, newline separators removed (the source
iterates lines of the file and strips each, so keeping the newline inside the
line would make no observable difference). -/
def splitLines (s : String) : List String := (splitLinesAux s.data []).map (fun l => ⟨l⟩)

/-- Python line.split(chr(61), 1): the pair around the first equals sign. -/
def splitEq1 : List Char → List Char × List Char
  | [] => ([], [])
  | c :: rest =>
    if c = '=' then ([], rest)
    else
      let p := splitEq1 rest
      (c :: p.1, p.2)

/-- Python s[-n:]. -/
def takeLast (s : String) (n : Nat) : String := ⟨(s.data.reverse.take n).reverse⟩

/-! ## Environment resolution (bot.py lines 297-303) -/

/-- An environment: total map from variable names to optional values. -/
abbrev EnvMap := String → Option String

/-- One iteration of the loop at bot.py lines 300-303: a line is applied to the
environment only when it contains an equals sign and its stripped form does not
start with a hash; then the stripped line is split at the first equals sign and
the key is bound to the value, overriding any previous binding. -/
def applyEnvLine (env : EnvMap) (line : String) : EnvMap :=
  if containsChar line '=' && !(pyStartsWith (pyStrip line) "#") then
    let kv := splitEq1 (pyStrip line).data
    fun x => if x = (⟨kv.1⟩ : String) then some (⟨kv.2⟩ : String) else env x
  else env

/-- The whole loop over the lines of the override file, in order. -/
def applyEnvLines (env : EnvMap) (lines : List String) : EnvMap :=
  lines.foldl applyEnvLine env

/-- bot.py lines 297-303: custom_env starts as a copy of os.environ; when the
override file exists (envFile = some content) each of its lines is layered on
top. envFile = none models os.path.exists returning False. -/
def resolveEnv (environ : EnvMap) (envFile : Option String) : EnvMap :=
  match envFile with
  | none => environ
  | some content => applyEnvLines environ (splitLines content)

/-! ## Process registry and filesystem model -/

/-- A spawned child process as seen through subprocess.Popen: its pid, and
whether poll() currently returns None (alive = true). -/
structure Proc where
  pid : Nat
  alive : Bool
deriving DecidableEq, Repr

/-- The running_processes dict (bot.py line 29), as an association list with
unique keys maintained by updateReg. -/
abbrev Registry := List (String × Proc)

def lookupReg : Registry → String → Option Proc
  | [], _ => none
  | e :: rest, k => if e.1 = k then some e.2 else lookupReg rest k

/-- Python dict assignment: replace the binding if the key is present,
otherwise add it at the end. -/
def updateReg : Registry → String → Proc → Registry
  | [], k, v => [(k, v)]
  | e :: rest, k, v => if e.1 = k then (k, v) :: rest else e :: updateReg rest k v

/-- The liveness test used throughout bot.py: filename in running_processes
and running_processes[filename].poll() is None. -/
def isAliveReg (reg : Registry) (f : String) : Bool :=
  match lookupReg reg f with
  | some p => p.alive
  | none => false

/-- Number of registry entries whose process is alive. -/
def liveCount (reg : Registry) : Nat := (reg.filter (fun e => e.2.alive)).length

/-- The filesystem: a map from paths to optional file contents.
none models a path for which os.path.exists is False. -/
abbrev FileSys := String → Option String

/-- bot.py pattern: if os.path.exists(p): os.remove(p). -/
def removeIfExists (fs : FileSys) (p : String) : FileSys :=
  if (fs p).isSome then fun q => if q = p then none else fs q else fs

def UPLOAD_DIR : String := "scripts"

/-- os.path.join(UPLOAD_DIR, name). -/
def joinPath (d name : String) : String := d ++ "/" ++ name

def scriptFile (f : String) : String := joinPath UPLOAD_DIR f
def envFile (f : String) : String := joinPath UPLOAD_DIR (f ++ ".env")
def reqFile (f : String) : String := joinPath UPLOAD_DIR (f ++ "_req.txt")
def logFile (f : String) : String := joinPath UPLOAD_DIR (f ++ ".log")

/-- Global state touched by the handlers: the scripts directory and the
running_processes registry, plus the ambient os.environ. -/
structure BotState where
  fs : FileSys
  registry : Registry
  environ : EnvMap

/-- Replies sent back to the chat caller. notRunning is the signal the spec
posits for stopping a non-running script; the code never produces it. -/
inductive Msg where
  | alreadyRunning (f : String)
  | starting (f : String) (pid : Nat)
  | crashed (tail : String)
  | running (f : String)
  | errorMsg (e : String)
  | stopped (f : String)
  | notRunning (f : String)
  | deleted (f : String)
deriving DecidableEq, Repr

/-- Observable OS-level actions of the handlers, in program order:
spawn is subprocess.Popen, sleep is asyncio.sleep(seconds), killGroup pid is
os.killpg(os.getpgid(pid), signal.SIGTERM), waitPid is Popen.wait(). -/
inductive Event where
  | spawn (pid : Nat)
  | sleep (seconds : Nat)
  | killGroup (pid : Nat)
  | waitPid (pid : Nat)
deriving DecidableEq, Repr

/-- Result of running one handler: the new state, the replies sent, the
OS-level events performed, and the environment passed to Popen when a spawn
was attempted. -/
structure StepResult where
  state : BotState
  msgs : List Msg
  events : List Event
  spawnEnv : Option EnvMap := none

/-- asyncio.sleep(3) at bot.py line 319. -/
def GRACE_PERIOD : Nat := 3

/-- f.read()[-3000:] at bot.py line 323. -/
def CRASH_TAIL_LIMIT : Nat := 3000

/-- Nondeterministic outcomes of one Start attempt, fixed up front: whether
Popen raises (and with what message), the pid of the new child, whether the
child has exited by the time of the poll() after the grace period, and what
the child has written into its log by then. -/
structure StartOracle where
  spawnErr : Option String
  newPid : Nat
  graceExited : Bool
  childOutput : String

/-- bot.py lines 286-331 (execute_script).
1. If the filename is registered and its process polls alive, reply
   already-running and return with no side effect (lines 292-295).
2. Resolve the environment from os.environ and the optional .env file
   (lines 297-303).
3. Open the log file in write mode, truncating it (line 305).
4. Popen the script in a new process group with output into the log
   (lines 307-314); a raised exception replies an error message and leaves
   the registry untouched (log already truncated).
5. Record the process in running_processes (line 315), reply Starting with
   the pid (line 317), sleep the grace period, re-poll (lines 319-320): if
   exited, reply Crashed with the last 3000 characters of the log read back
   from disk (lines 321-324), else reply that the script is running
   (line 326). -/
def execute_script (st : BotState) (filename : String) (orc : StartOracle) : StepResult :=
  if isAliveReg st.registry filename then
    { state := st, msgs := [Msg.alreadyRunning filename], events := [] }
  else
    let custom_env := resolveEnv st.environ (st.fs (envFile filename))
    let fs1 : FileSys := fun q => if q = logFile filename then some "" else st.fs q
    match orc.spawnErr with
    | some e =>
      { state := { st with fs := fs1 }, msgs := [Msg.errorMsg e], events := [] }
    | none =>
      let fs2 : FileSys := fun q => if q = logFile filename then some orc.childOutput else st.fs q
      let reg2 := updateReg st.registry filename { pid := orc.newPid, alive := !orc.graceExited }
      if orc.graceExited then
        let tail := takeLast ((fs2 (logFile filename)).getD "") CRASH_TAIL_LIMIT
        { state := { st with fs := fs2, registry := reg2 },
          msgs := [Msg.starting filename orc.newPid, Msg.crashed tail],
          events := [Event.spawn orc.newPid, Event.sleep GRACE_PERIOD],
          spawnEnv := some custom_env }
      else
        { state := { st with fs := fs2, registry := reg2 },
          msgs := [Msg.starting filename orc.newPid, Msg.running filename],
          events := [Event.spawn orc.newPid, Event.sleep GRACE_PERIOD],
          spawnEnv := some custom_env }

/-- bot.py lines 381-386 (the stop branch of file_action_handler).
The guard is registry membership only, not a poll: when the filename is
registered, the whole process group of the recorded pid is signalled with
SIGTERM, the process is waited for (reaped, so poll() stops returning None),
and a Stopped reply is sent; when it is not registered nothing at all
happens and no reply is sent. -/
def stop_script (st : BotState) (filename : String) : StepResult :=
  match lookupReg st.registry filename with
  | some p =>
    { state := { st with
        registry := updateReg st.registry filename { p with alive := false } },
      msgs := [Msg.stopped filename],
      events := [Event.killGroup p.pid, Event.waitPid p.pid] }
  | none => { state := st, msgs := [], events := [] }

/-- bot.py lines 395-402 (the delete branch of file_action_handler).
Removes, each guarded by os.path.exists, the executable, the .env override,
the _req.txt manifest and the .log file, then replies Deleted. The registry
is not consulted and no process is stopped. -/
def delete_script (st : BotState) (filename : String) : StepResult :=
  let fs1 := removeIfExists st.fs (joinPath UPLOAD_DIR filename)
  let fs2 := removeIfExists fs1 (joinPath UPLOAD_DIR (filename ++ ".env"))
  let fs3 := removeIfExists fs2 (joinPath UPLOAD_DIR (filename ++ "_req.txt"))
  let fs4 := removeIfExists fs3 (joinPath UPLOAD_DIR (filename ++ ".log"))
  { state := { st with fs := fs4 }, msgs := [Msg.deleted filename], events := [] }

/-! ## Allow-list management (bot.py lines 40-68) -/

/-- bot.py lines 50-58. The list read by get_allowed_users is the input; the
pair is (return value, stored list afterwards). When the id is absent it is
appended and the file rewritten; when present nothing is written. -/
def save_allowed_user (users : List Int) (user_id : Int) : Bool × List Int :=
  if user_id ∈ users then (false, users) else (true, users ++ [user_id])

/-- bot.py lines 60-68. Python list.remove deletes the first occurrence. -/
def remove_allowed_user (users : List Int) (user_id : Int) : Bool × List Int :=
  if user_id ∈ users then (true, users.erase user_id) else (false, users)

/-! ## Requirements rewriting (bot.py lines 156-175) -/

/-- One iteration of the loop at bot.py lines 161-169 over the accumulated
clean_lines: strip the line; drop it when empty; when its lowercase form
starts with pip install, extend with the whitespace-split of the rest of the
line after the first 11 characters (themselves stripped); otherwise append
the stripped line. -/
def fixLine (clean : List String) (line : String) : List String :=
  let s := pyStrip line
  if s = "" then clean
  else if pyStartsWith (pyLower s) "pip install" then
    clean ++ pySplitWS (pyStrip (pyDrop s 11))
  else clean ++ [s]

/-- The whole loop of smart_fix_requirements. -/
def fixLines (lines : List String) : List String := lines.foldl fixLine []

/-- chr(10).join(clean_lines). -/
def joinNL : List String → String
  | [] => ""
  | [s] => s
  | s :: rest => s ++ "\n" ++ joinNL rest

/-- bot.py lines 156-175. Input none models a file that cannot be read (the
except branch prints and returns False, leaving no file written); input
some content models a readable file, which is rewritten in place and True
returned. -/
def smart_fix_requirements (file : Option String) : Bool × Option String :=
  match file with
  | none => (false, none)
  | some content => (true, some (joinNL (fixLines (splitLines content))))

/-- The per-line classification as the claim words it: a blank line yields
nothing, a pip-install line yields its whitespace-separated package tokens,
any other line yields itself stripped. Used to state the refinement for
claim C10 and compared with the loop-based fixLines from the source. -/
def specFixLine (line : String) : List String :=
  let s := pyStrip line
  if s = "" then []
  else if pyStartsWith (pyLower s) "pip install" then
    pySplitWS (pyStrip (pyDrop s 11))
  else [s]

/-- Concatenation of the per-line classifications, in original order. -/
def specFixLines (lines : List String) : List String :=
  lines.foldr (fun l acc => specFixLine l ++ acc) []

/-! ## Concrete fixtures used by witnesses and counterexamples -/

/-- An ambient os.environ with A=1 and HOME=/root. -/
def envAmbient : EnvMap :=
  fun k => if k = "A" then some "1" else if k = "HOME" then some "/root" else none

/-- An empty scripts directory. -/
def fsEmpty : FileSys := fun _ => none

/-- Fresh state: nothing on disk, nothing registered. -/
def stEmpty : BotState := BotState.mk fsEmpty [] envAmbient

/-- State where a.py is registered and its process polls alive. -/
def stRunning : BotState := BotState.mk fsEmpty [("a.py", Proc.mk 5 true)] envAmbient

/-- State where a.py is registered but its process has already exited. -/
def stExited : BotState := BotState.mk fsEmpty [("a.py", Proc.mk 5 false)] envAmbient

/-- A scripts directory holding all four artifacts of a.py plus an unrelated
file, with a.py registered and alive. -/
def fsFull : FileSys :=
  fun p =>
    if p = "scripts/a.py" then some "import time"
    else if p = "scripts/a.py.env" then some "A=2\nB=3"
    else if p = "scripts/a.py_req.txt" then some "requests"
    else if p = "scripts/a.py.log" then some "old run"
    else if p = "scripts/b.py" then some "pass"
    else none

def stFull : BotState := BotState.mk fsFull [("a.py", Proc.mk 5 true)] envAmbient

/-- Spawn succeeds, pid 42, still alive after the grace period. -/
def orcOk : StartOracle := StartOracle.mk none 42 false "ready\n"

/-- Spawn succeeds, pid 42, exits during the grace period with boom logged. -/
def orcCrash : StartOracle := StartOracle.mk none 42 true "boom"

/-- Popen raises. -/
def orcFail : StartOracle := StartOracle.mk (some "perm") 0 false ""

/-! ## Helper lemmas -/

theorem removeIfExists_eval (fs : FileSys) (p q : String) :
    removeIfExists fs p q = if q = p then none else fs q := by
  unfold removeIfExists
  by_cases hs : (fs p).isSome
  · rw [if_pos hs]
  · rw [if_neg hs]
    by_cases hq : q = p
    · subst hq
      rw [if_pos rfl]
      exact Option.not_isSome_iff_eq_none.mp hs
    · rw [if_neg hq]

theorem lookupReg_update_self (reg : Registry) (f : String) (p : Proc) :
    lookupReg (updateReg reg f p) f = some p := by
  induction reg with
  | nil => simp [updateReg, lookupReg]
  | cons e rest ih =>
    by_cases h : e.1 = f
    · simp [updateReg, lookupReg, h]
    · simp [updateReg, lookupReg, h, ih]

theorem updateReg_of_not_mem (reg : Registry) (f : String) (p : Proc)
    (h : lookupReg reg f = none) : updateReg reg f p = reg ++ [(f, p)] := by
  induction reg with
  | nil => rfl
  | cons e rest ih =>
    unfold lookupReg at h
    by_cases he : e.1 = f
    · rw [if_pos he] at h
      exact absurd h (by simp)
    · rw [if_neg he] at h
      unfold updateReg
      rw [if_neg he, ih h]
      rfl

theorem liveCount_append_one (reg : Registry) (f : String) (p : Proc)
    (hp : p.alive = true) : liveCount (reg ++ [(f, p)]) = liveCount reg + 1 := by
  unfold liveCount
  rw [List.filter_append]
  simp [hp]

theorem takeLast_length_le (s : String) (n : Nat) : (takeLast s n).length ≤ n := by
  show ((s.data.reverse.take n).reverse).length ≤ n
  rw [List.length_reverse, List.length_take]
  exact min_le_left _ _

theorem execute_script_already (st : BotState) (f : String) (orc : StartOracle)
    (halive : isAliveReg st.registry f = true) :
    execute_script st f orc
      = { state := st, msgs := [Msg.alreadyRunning f], events := [] } := by
  unfold execute_script
  rw [if_pos halive]

theorem execute_script_runs (st : BotState) (f : String) (orc : StartOracle)
    (halive : isAliveReg st.registry f = false) (hspawn : orc.spawnErr = none)
    (hgrace : orc.graceExited = false) :
    execute_script st f orc =
      { state := { st with
          fs := (fun q => if q = logFile f then some orc.childOutput else st.fs q),
          registry := updateReg st.registry f (Proc.mk orc.newPid true) },
        msgs := [Msg.starting f orc.newPid, Msg.running f],
        events := [Event.spawn orc.newPid, Event.sleep GRACE_PERIOD],
        spawnEnv := some (resolveEnv st.environ (st.fs (envFile f))) } := by
  unfold execute_script
  rw [halive, hspawn, hgrace]
  simp

theorem execute_script_crashes (st : BotState) (f : String) (orc : StartOracle)
    (halive : isAliveReg st.registry f = false) (hspawn : orc.spawnErr = none)
    (hgrace : orc.graceExited = true) :
    execute_script st f orc =
      { state := { st with
          fs := (fun q => if q = logFile f then some orc.childOutput else st.fs q),
          registry := updateReg st.registry f (Proc.mk orc.newPid false) },
        msgs := [Msg.starting f orc.newPid,
                 Msg.crashed (takeLast orc.childOutput CRASH_TAIL_LIMIT)],
        events := [Event.spawn orc.newPid, Event.sleep GRACE_PERIOD],
        spawnEnv := some (resolveEnv st.environ (st.fs (envFile f))) } := by
  unfold execute_script
  rw [halive, hspawn, hgrace]
  simp

theorem execute_script_spawn_fails (st : BotState) (f : String) (orc : StartOracle)
    (e : String) (halive : isAliveReg st.registry f = false)
    (hspawn : orc.spawnErr = some e) :
    execute_script st f orc =
      { state := { st with
          fs := (fun q => if q = logFile f then some "" else st.fs q) },
        msgs := [Msg.errorMsg e], events := [] } := by
  unfold execute_script
  rw [halive, hspawn]
  simp

theorem execute_script_log (st : BotState) (f : String) (orc : StartOracle)
    (halive : isAliveReg st.registry f = false) :
    (execute_script st f orc).state.fs (logFile f)
      = some (if orc.spawnErr.isSome then "" else orc.childOutput) := by
  cases hs : orc.spawnErr with
  | none =>
    cases hg : orc.graceExited
    · rw [execute_script_runs st f orc halive hs hg]
      simp [hs]
    · rw [execute_script_crashes st f orc halive hs hg]
      simp [hs]
  | some e =>
    rw [execute_script_spawn_fails st f orc e halive hs]
    simp [hs]

theorem fixLine_eq (acc : List String) (l : String) :
    fixLine acc l = acc ++ specFixLine l := by
  unfold fixLine specFixLine
  by_cases h1 : pyStrip l = ""
  · simp [h1]
  · by_cases h2 : pyStartsWith (pyLower (pyStrip l)) "pip install" = true
    · simp [h1, h2]
    · simp [h1, h2]

theorem fixLines_foldl (lines : List String) :
    ∀ acc : List String, lines.foldl fixLine acc = acc ++ specFixLines lines := by
  induction lines with
  | nil => intro acc; simp [specFixLines]
  | cons l rest ih =>
    intro acc
    show rest.foldl fixLine (fixLine acc l) = _
    rw [ih (fixLine acc l), fixLine_eq]
    simp [specFixLines]

theorem fixLines_eq_specFixLines (lines : List String) :
    fixLines lines = specFixLines lines := by
  unfold fixLines
  rw [fixLines_foldl]
  rfl

theorem stop_script_none (st : BotState) (f : String)
    (h : lookupReg st.registry f = none) :
    stop_script st f = { state := st, msgs := [], events := [] } := by
  unfold stop_script
  rw [h]

theorem stop_script_mem (st : BotState) (f : String) (p : Proc)
    (h : lookupReg st.registry f = some p) :
    stop_script st f =
      { state := { st with registry := updateReg st.registry f (Proc.mk p.pid false) },
        msgs := [Msg.stopped f],
        events := [Event.killGroup p.pid, Event.waitPid p.pid] } := by
  unfold stop_script
  rw [h]

/-! ## Claim theorems -/

/-- Claim C1, counterexample: in a state where a.py is registered with a live
process and all four artifacts exist on disk, the delete handler leaves the
process alive (liveness afterwards still reports true) and issues no
termination event at all, refuting the claim that delete first stops the
process so that no live process remains afterward. -/
theorem delete_not_stopping_c1_counterexample :
    isAliveReg stFull.registry "a.py" = true ∧
    isAliveReg (delete_script stFull "a.py").state.registry "a.py" = true ∧
    (delete_script stFull "a.py").events = [] := by decide

/-- Claim C1, amended: the delete handler removes all four artifact kinds
(executable, env override, dependency manifest, log), each removal tolerating
a missing file, and leaves every other path untouched, but it does not stop a
running process: the registry, the liveness verdict and the event trace are
unchanged, and only a Deleted reply is sent. -/
theorem delete_artifacts_c1 (st : BotState) (f : String) :
    (delete_script st f).state.registry = st.registry ∧
    (delete_script st f).state.environ = st.environ ∧
    (delete_script st f).events = [] ∧
    (delete_script st f).msgs = [Msg.deleted f] ∧
    isAliveReg (delete_script st f).state.registry f = isAliveReg st.registry f ∧
    (delete_script st f).state.fs (scriptFile f) = none ∧
    (delete_script st f).state.fs (envFile f) = none ∧
    (delete_script st f).state.fs (reqFile f) = none ∧
    (delete_script st f).state.fs (logFile f) = none ∧
    ∀ q, q ≠ scriptFile f → q ≠ envFile f → q ≠ reqFile f → q ≠ logFile f →
      (delete_script st f).state.fs q = st.fs q := by
  have hfs : ∀ q, (delete_script st f).state.fs q =
      if q = logFile f then none
      else if q = reqFile f then none
      else if q = envFile f then none
      else if q = scriptFile f then none
      else st.fs q := by
    intro q
    unfold delete_script
    dsimp only
    simp only [removeIfExists_eval]
    rfl
  refine ⟨rfl, rfl, rfl, rfl, rfl, ?_, ?_, ?_, ?_, ?_⟩
  · rw [hfs]; simp
  · rw [hfs]; simp
  · rw [hfs]; simp
  · rw [hfs]; simp
  · intro q h1 h2 h3 h4
    rw [hfs, if_neg h4, if_neg h3, if_neg h2, if_neg h1]

/-- Claim C1, witness: concrete application of the amended delete theorem to
the fully populated state. -/
theorem delete_artifacts_c1_witness :
    (delete_script stFull "a.py").state.registry = stFull.registry ∧
    (delete_script stFull "a.py").state.fs (scriptFile "a.py") = none ∧
    (delete_script stFull "a.py").state.fs (envFile "a.py") = none ∧
    (delete_script stFull "a.py").state.fs (reqFile "a.py") = none ∧
    (delete_script stFull "a.py").state.fs (logFile "a.py") = none ∧
    (delete_script stFull "a.py").state.fs "scripts/b.py" = stFull.fs "scripts/b.py" := by
  obtain ⟨h1, h2, h3, h4, h5, h6, h7, h8, h9, h10⟩ := delete_artifacts_c1 stFull "a.py"
  exact ⟨h1, h6, h7, h8, h9,
    h10 "scripts/b.py" (by decide) (by decide) (by decide) (by decide)⟩

/-- Claim C2: when the registry reports the identity alive, execute_script
replies AlreadyRunning and has no side effect at all (identical state, no
events); consequently a Start on a fresh identity followed by a second Start
spawns exactly one process, raises the live-process count by exactly one, and
the second call observes AlreadyRunning while changing nothing. -/
theorem start_single_flight_c2 :
    (∀ (st : BotState) (f : String) (orc : StartOracle),
      isAliveReg st.registry f = true →
      execute_script st f orc
        = { state := st, msgs := [Msg.alreadyRunning f], events := [] }) ∧
    (∀ (st : BotState) (f : String) (orc1 orc2 : StartOracle),
      lookupReg st.registry f = none → orc1.spawnErr = none →
      orc1.graceExited = false →
      (execute_script st f orc1).events
        = [Event.spawn orc1.newPid, Event.sleep GRACE_PERIOD] ∧
      liveCount (execute_script st f orc1).state.registry
        = liveCount st.registry + 1 ∧
      isAliveReg (execute_script st f orc1).state.registry f = true ∧
      execute_script (execute_script st f orc1).state f orc2
        = { state := (execute_script st f orc1).state,
            msgs := [Msg.alreadyRunning f], events := [] }) := by
  constructor
  · exact fun st f orc h => execute_script_already st f orc h
  · intro st f orc1 orc2 hnone hspawn hgrace
    have halive : isAliveReg st.registry f = false := by
      unfold isAliveReg; rw [hnone]
    have h1 := execute_script_runs st f orc1 halive hspawn hgrace
    have halive2 : isAliveReg (execute_script st f orc1).state.registry f = true := by
      rw [h1]
      show isAliveReg (updateReg st.registry f (Proc.mk orc1.newPid true)) f = true
      unfold isAliveReg
      rw [lookupReg_update_self]
    refine ⟨?_, ?_, halive2, ?_⟩
    · rw [h1]
    · rw [h1]
      show liveCount (updateReg st.registry f (Proc.mk orc1.newPid true)) = _
      rw [updateReg_of_not_mem st.registry f _ hnone,
          liveCount_append_one st.registry f _ rfl]
    · exact execute_script_already _ f orc2 halive2

/-- Claim C2, witness: the already-running rejection and the two-start
scenario applied to concrete states and oracles. -/
theorem start_single_flight_c2_witness :
    execute_script stRunning "a.py" orcOk
      = { state := stRunning, msgs := [Msg.alreadyRunning "a.py"], events := [] } ∧
    liveCount (execute_script stEmpty "a.py" orcOk).state.registry
      = liveCount stEmpty.registry + 1 ∧
    execute_script (execute_script stEmpty "a.py" orcOk).state "a.py" orcOk
      = { state := (execute_script stEmpty "a.py" orcOk).state,
          msgs := [Msg.alreadyRunning "a.py"], events := [] } := by
  obtain ⟨hA, hB⟩ := start_single_flight_c2
  obtain ⟨e1, e2, e3, e4⟩ := hB stEmpty "a.py" orcOk orcOk rfl rfl rfl
  exact ⟨hA stRunning "a.py" orcOk rfl, e2, e4⟩

/-- Claim C3, counterexample: with a registered identity whose process has
already exited, the registry does not report it alive, yet the stop handler
is not a no-op: it signals the whole process group, waits for it, and replies
Stopped; it never sends a NotRunning signal. -/
theorem stop_not_noop_c3_counterexample :
    isAliveReg stExited.registry "a.py" = false ∧
    (stop_script stExited "a.py").msgs = [Msg.stopped "a.py"] ∧
    (stop_script stExited "a.py").events = [Event.killGroup 5, Event.waitPid 5] ∧
    Msg.notRunning "a.py" ∉ (stop_script stExited "a.py").msgs := by decide

/-- Claim C3, amended: the stop handler guards on registry membership only,
not on liveness. For an identity with no registry entry it does nothing and
sends no message (a silent no-op, raising no fault in the model); for any
registered entry, even one whose process has already exited, it signals the
process group of the recorded pid, waits, and replies Stopped; in no case is
a NotRunning signal sent. -/
theorem stop_membership_guard_c3 (st : BotState) (f : String) :
    (lookupReg st.registry f = none →
      stop_script st f = { state := st, msgs := [], events := [] }) ∧
    (∀ p : Proc, lookupReg st.registry f = some p →
      stop_script st f =
        { state := { st with
            registry := updateReg st.registry f (Proc.mk p.pid false) },
          msgs := [Msg.stopped f],
          events := [Event.killGroup p.pid, Event.waitPid p.pid] }) ∧
    Msg.notRunning f ∉ (stop_script st f).msgs := by
  refine ⟨fun h => stop_script_none st f h, fun p h => stop_script_mem st f p h, ?_⟩
  rcases hl : lookupReg st.registry f with _ | p
  · rw [stop_script_none st f hl]
    simp
  · rw [stop_script_mem st f p hl]
    simp

/-- Claim C3, witness: the amended stop behavior at a state with no entry and
at a state whose entry has exited. -/
theorem stop_membership_guard_c3_witness :
    stop_script stEmpty "a.py" = { state := stEmpty, msgs := [], events := [] } ∧
    stop_script stExited "a.py"
      = { state := { stExited with
            registry := updateReg stExited.registry "a.py" (Proc.mk 5 false) },
          msgs := [Msg.stopped "a.py"],
          events := [Event.killGroup 5, Event.waitPid 5] } ∧
    Msg.notRunning "a.py" ∉ (stop_script stEmpty "a.py").msgs := by
  obtain ⟨hnone, -, -⟩ := stop_membership_guard_c3 stEmpty "a.py"
  obtain ⟨-, hsome, -⟩ := stop_membership_guard_c3 stExited "a.py"
  obtain ⟨-, -, hnr⟩ := stop_membership_guard_c3 stEmpty "a.py"
  exact ⟨hnone rfl, hsome (Proc.mk 5 false) rfl, hnr⟩

/-- Claim C4: for a registered identity whose process is alive, the stop
handler signals SIGTERM to the whole process group of the recorded pid, then
waits for the process (so it is reaped before stop returns), replies Stopped,
and afterwards the liveness query for that identity immediately reports
not-running. -/
theorem stop_synchronous_c4 (st : BotState) (f : String) (p : Proc)
    (hl : lookupReg st.registry f = some p) (_halive : p.alive = true) :
    stop_script st f =
      { state := { st with
          registry := updateReg st.registry f (Proc.mk p.pid false) },
        msgs := [Msg.stopped f],
        events := [Event.killGroup p.pid, Event.waitPid p.pid] } ∧
    isAliveReg (stop_script st f).state.registry f = false := by
  have h1 := stop_script_mem st f p hl
  refine ⟨h1, ?_⟩
  rw [h1]
  show isAliveReg (updateReg st.registry f (Proc.mk p.pid false)) f = false
  unfold isAliveReg
  rw [lookupReg_update_self]

/-- Claim C4, witness: stopping the live a.py process of the running state
kills, then waits on, process group 5 and leaves the identity not-running. -/
theorem stop_synchronous_c4_witness :
    (stop_script stRunning "a.py").events = [Event.killGroup 5, Event.waitPid 5] ∧
    isAliveReg (stop_script stRunning "a.py").state.registry "a.py" = false := by
  obtain ⟨h1, h2⟩ := stop_synchronous_c4 stRunning "a.py" (Proc.mk 5 true) rfl rfl
  exact ⟨by rw [h1], h2⟩

/-- Claim C5: every successful spawn is followed by the fixed 3 second grace
period and a liveness recheck; if the process has exited by then, the replies
are the Starting message (carrying the pid) and a crash report holding at
most the last 3000 characters of the run log; if it is still alive, the
replies are the Starting message with the pid and the running-success
report. -/
theorem start_grace_check_c5 (st : BotState) (f : String) (orc : StartOracle)
    (halive : isAliveReg st.registry f = false) (hspawn : orc.spawnErr = none) :
    (execute_script st f orc).events
      = [Event.spawn orc.newPid, Event.sleep GRACE_PERIOD] ∧
    GRACE_PERIOD = 3 ∧
    (orc.graceExited = true →
      (execute_script st f orc).msgs
        = [Msg.starting f orc.newPid,
           Msg.crashed (takeLast orc.childOutput CRASH_TAIL_LIMIT)] ∧
      (takeLast orc.childOutput CRASH_TAIL_LIMIT).length ≤ CRASH_TAIL_LIMIT ∧
      CRASH_TAIL_LIMIT = 3000) ∧
    (orc.graceExited = false →
      (execute_script st f orc).msgs
        = [Msg.starting f orc.newPid, Msg.running f]) := by
  refine ⟨?_, rfl, ?_, ?_⟩
  · cases hg : orc.graceExited
    · rw [execute_script_runs st f orc halive hspawn hg]
    · rw [execute_script_crashes st f orc halive hspawn hg]
  · intro hg
    rw [execute_script_crashes st f orc halive hspawn hg]
    exact ⟨rfl, takeLast_length_le _ _, rfl⟩
  · intro hg
    rw [execute_script_runs st f orc halive hspawn hg]

/-- Claim C5, witness: a crashing oracle yields the crash report with the log
tail, a surviving oracle yields the running report, both after the Starting
reply carrying pid 42. -/
theorem start_grace_check_c5_witness :
    (execute_script stEmpty "a.py" orcCrash).msgs
      = [Msg.starting "a.py" 42, Msg.crashed (takeLast "boom" CRASH_TAIL_LIMIT)] ∧
    (execute_script stEmpty "a.py" orcOk).msgs
      = [Msg.starting "a.py" 42, Msg.running "a.py"] := by
  obtain ⟨-, -, hc, -⟩ := start_grace_check_c5 stEmpty "a.py" orcCrash rfl rfl
  obtain ⟨-, -, -, hr⟩ := start_grace_check_c5 stEmpty "a.py" orcOk rfl rfl
  exact ⟨(hc rfl).1, hr rfl⟩

/-- Claim C6: with no override file the resolved environment is the ambient
environment unchanged; with an override file containing A=2 and B=3 over an
ambient environment mapping A to 1, the resolved environment maps A to 2 and
B to 3 and agrees with the ambient environment on every other key. -/
theorem env_layering_c6 :
    (∀ env : EnvMap, resolveEnv env none = env) ∧
    (∀ env : EnvMap, env "A" = some "1" →
      resolveEnv env (some "A=2\nB=3") "A" = some "2" ∧
      resolveEnv env (some "A=2\nB=3") "B" = some "3" ∧
      ∀ k : String, k ≠ "A" → k ≠ "B" →
        resolveEnv env (some "A=2\nB=3") k = env k) := by
  refine ⟨fun env => rfl, fun env _h => ⟨rfl, rfl, fun k hA hB => ?_⟩⟩
  show (if k = "B" then some "3" else if k = "A" then some "2" else env k) = env k
  rw [if_neg hB, if_neg hA]

/-- Claim C6, witness: layering over the concrete ambient environment with
A=1 and HOME=/root. -/
theorem env_layering_c6_witness :
    resolveEnv envAmbient (some "A=2\nB=3") "A" = some "2" ∧
    resolveEnv envAmbient (some "A=2\nB=3") "B" = some "3" ∧
    resolveEnv envAmbient (some "A=2\nB=3") "HOME" = envAmbient "HOME" := by
  obtain ⟨h1, h2, h3⟩ := env_layering_c6.2 envAmbient rfl
  exact ⟨h1, h2, h3 "HOME" (by decide) (by decide)⟩

/-- Claim C7: the environment parser is total and forgiving: a line with no
equals sign (which covers blank lines) leaves the environment unchanged, a
line whose stripped form starts with a hash leaves it unchanged, and the
concrete file with lines not-a-pair, a comment, and C=4 resolves to the
ambient environment plus only the binding of C to 4. -/
theorem env_forgiving_c7 :
    (∀ (env : EnvMap) (line : String), containsChar line '=' = false →
      applyEnvLine env line = env) ∧
    (∀ (env : EnvMap) (line : String), pyStartsWith (pyStrip line) "#" = true →
      applyEnvLine env line = env) ∧
    (∀ env : EnvMap,
      applyEnvLines env ["not-a-pair", "# comment", "C=4"] "C" = some "4" ∧
      ∀ k : String, k ≠ "C" →
        applyEnvLines env ["not-a-pair", "# comment", "C=4"] k = env k) := by
  refine ⟨fun env line h => by simp [applyEnvLine, h],
          fun env line h => by simp [applyEnvLine, h],
          fun env => ⟨rfl, fun k hk => ?_⟩⟩
  show (if k = "C" then some "4" else env k) = env k
  rw [if_neg hk]

/-- Claim C7, witness: the forgiving parse applied to the concrete malformed
line, comment line, and C=4 over the concrete ambient environment. -/
theorem env_forgiving_c7_witness :
    applyEnvLine envAmbient "not-a-pair" = envAmbient ∧
    applyEnvLine envAmbient "# comment" = envAmbient ∧
    applyEnvLines envAmbient ["not-a-pair", "# comment", "C=4"] "C" = some "4" ∧
    applyEnvLines envAmbient ["not-a-pair", "# comment", "C=4"] "HOME"
      = envAmbient "HOME" := by
  obtain ⟨hmal, hcom, hex⟩ := env_forgiving_c7
  obtain ⟨hC, hother⟩ := hex envAmbient
  exact ⟨hmal envAmbient "not-a-pair" rfl, hcom envAmbient "# comment" rfl,
         hC, hother "HOME" (by decide)⟩

/-- Claim C8: every spawning Start opens the run log in create-or-truncate
write mode, so after the call the log holds exactly the new run content (the
empty string when Popen raised before the child could write, the child
output otherwise) and in particular the previous log content is never
appended to: the resulting log is the same whatever the log held before. -/
theorem log_truncation_c8 (st : BotState) (f : String) (orc : StartOracle)
    (halive : isAliveReg st.registry f = false) :
    (execute_script st f orc).state.fs (logFile f)
      = some (if orc.spawnErr.isSome then "" else orc.childOutput) ∧
    ∀ old : Option String,
      (execute_script
          { st with fs := (fun q => if q = logFile f then old else st.fs q) }
          f orc).state.fs (logFile f)
        = (execute_script st f orc).state.fs (logFile f) := by
  refine ⟨execute_script_log st f orc halive, ?_⟩
  intro old
  rw [execute_script_log st f orc halive,
      execute_script_log
        { st with fs := (fun q => if q = logFile f then old else st.fs q) }
        f orc halive]

/-- Claim C8, witness: starting a.py from the empty state and from a state
whose log already holds OLD produces the same log, namely the child
output. -/
theorem log_truncation_c8_witness :
    (execute_script stEmpty "a.py" orcOk).state.fs (logFile "a.py")
      = some (if orcOk.spawnErr.isSome then "" else orcOk.childOutput) ∧
    (execute_script
        { stEmpty with
          fs := (fun q => if q = logFile "a.py" then some "OLD" else stEmpty.fs q) }
        "a.py" orcOk).state.fs (logFile "a.py")
      = (execute_script stEmpty "a.py" orcOk).state.fs (logFile "a.py") := by
  obtain ⟨h1, h2⟩ := log_truncation_c8 stEmpty "a.py" orcOk rfl
  exact ⟨h1, h2 (some "OLD")⟩

/-- Claim C9: the allow-list operations keep the stored list duplicate-free:
adding an id already present returns false and leaves the list unchanged,
adding an absent id appends it, both operations preserve the no-duplicates
invariant, and removing an absent id returns false and leaves the list
unchanged. -/
theorem allowlist_nodup_c9 :
    (∀ (users : List Int) (uid : Int), uid ∈ users →
      save_allowed_user users uid = (false, users)) ∧
    (∀ (users : List Int) (uid : Int), uid ∉ users →
      save_allowed_user users uid = (true, users ++ [uid])) ∧
    (∀ (users : List Int) (uid : Int), users.Nodup →
      (save_allowed_user users uid).2.Nodup) ∧
    (∀ (users : List Int) (uid : Int), uid ∉ users →
      remove_allowed_user users uid = (false, users)) ∧
    (∀ (users : List Int) (uid : Int), users.Nodup →
      (remove_allowed_user users uid).2.Nodup) := by
  refine ⟨?_, ?_, ?_, ?_, ?_⟩
  · intro users uid h; simp [save_allowed_user, h]
  · intro users uid h; simp [save_allowed_user, h]
  · intro users uid h
    by_cases hm : uid ∈ users
    · simp [save_allowed_user, hm, h]
    · simp [save_allowed_user, hm, List.nodup_append, h]
  · intro users uid h; simp [remove_allowed_user, h]
  · intro users uid h
    by_cases hm : uid ∈ users
    · simpa [remove_allowed_user, hm] using h.erase uid
    · simpa [remove_allowed_user, hm] using h

/-- Claim C9, witness: the allow-list operations applied to the concrete
list holding 7 and 8. -/
theorem allowlist_nodup_c9_witness :
    save_allowed_user [7, 8] 8 = (false, [7, 8]) ∧
    save_allowed_user [7, 8] 9 = (true, [7, 8, 9]) ∧
    (save_allowed_user [7, 8] 9).2.Nodup ∧
    remove_allowed_user [7, 8] 9 = (false, [7, 8]) ∧
    (remove_allowed_user [7, 8] 8).2.Nodup := by
  obtain ⟨h1, h2, h3, h4, h5⟩ := allowlist_nodup_c9
  exact ⟨h1 [7, 8] 8 (by decide), h2 [7, 8] 9 (by decide),
         h3 [7, 8] 9 (by decide), h4 [7, 8] 9 (by decide),
         h5 [7, 8] 8 (by decide)⟩

/-- Claim C10: rewriting a readable requirements file succeeds and replaces
its content with exactly the concatenation, in original order, of the
per-line classification (blank lines dropped, pip-install lines replaced by
their whitespace-separated package tokens, other lines kept stripped), and
an unreadable file yields a false return with nothing written. -/
theorem smart_fix_c10 :
    smart_fix_requirements none = (false, none) ∧
    ∀ content : String,
      smart_fix_requirements (some content)
        = (true, some (joinNL (specFixLines (splitLines content)))) := by
  refine ⟨rfl, fun content => ?_⟩
  show (true, some (joinNL (fixLines (splitLines content))))
    = (true, some (joinNL (specFixLines (splitLines content))))
  rw [fixLines_eq_specFixLines]

end PythonHosting
